import Mathlib

/-!
# FileFusion core pipeline — verification development

Shallow embedding of the FileFusion pipeline (package `filefusion`):
`filefusion/utils/helpers.py` (`is_binary`, `get_human_readable_size`,
`get_file_metadata`), `filefusion/core/file_processor.py`
(`should_process_file`, `build_file_header`, `process_file`) and
`filefusion/cli.py` (`main`: scheduling, statistics, output assembly).

The filesystem is modelled as a total map from path strings to a
`FileInfo` record capturing the observable answers of the OS calls the
code makes: `os.path.isfile`, `os.access(..., R_OK)`,
`os.path.getsize` (queried at filter time), `os.stat` (queried at
metadata time, possibly failing), `open('rb').read` (the byte sample,
`none` when opening/reading raises) and the full UTF-8 text read
(which can succeed, raise `UnicodeDecodeError`, or raise another
I/O error).  `os.path.abspath` and `os.path.relpath` are modelled as
abstract string functions carried by the filesystem model.
Timestamps are modelled as opaque strings (the code only formats and
prints them).  Python optional arguments (`args.include`,
`args.exclude`, `args.max_size`) are modelled as `Option`, with
Python truthiness made explicit (`none`, the empty string and `0` are
falsy).

Python string methods (`lower`, `endswith`, `split`, `lstrip`) are
modelled as list-of-character functions on `String.data`, so that all
definitions reduce inside the kernel; `lower` is modelled on the
ASCII range, which covers every string the pipeline compares
(extensions and paths).
-/

/-! ## Python string primitives -/

/-- `str.lower` on one character, ASCII range (A–Z ↦ a–z). -/
def pyCharLower (c : Char) : Char :=
  if 65 ≤ c.toNat && c.toNat ≤ 90 then Char.ofNat (c.toNat + 32) else c

/-- `str.lower` (ASCII model). -/
def pyLower (s : String) : String :=
  String.mk (s.data.map pyCharLower)

/-- `s.endswith(t)`. -/
def pyEndsWith (s t : String) : Bool :=
  t.data.isSuffixOf s.data

/-- `s.lstrip('.')`: drop every leading dot. -/
def pyLstripDots (s : String) : String :=
  String.mk (s.data.dropWhile (· == '.'))

/-- Splitting a character list at every comma; `[]` yields `[[]]`,
matching Python `"".split(',') == ['']`. -/
def commaSplit : List Char → List (List Char)
  | [] => [[]]
  | c :: rest =>
    match commaSplit rest, c == ',' with
    | r, true => [] :: r
    | h :: t, false => (c :: h) :: t
    | [], false => [[c]]

/-- `s.split(',')`. -/
def pySplitComma (s : String) : List String :=
  (commaSplit s.data).map String.mk

/-! ## Filter engine (`should_process_file`) -/

/-- Result of `os.stat`: size in bytes plus the two formatted timestamps
(`datetime.fromtimestamp(st_ctime/st_mtime)` modelled as opaque strings). -/
structure StatInfo where
  st_size : Nat
  st_ctime : String
  st_mtime : String
deriving DecidableEq

/-- Outcome of reading a file as UTF-8 text
(`open(file_path, 'r', encoding='utf-8')` plus the chunked read loop):
either the decoded content, a `UnicodeDecodeError`, or some other
I/O exception carrying its message. -/
inductive ReadOutcome where
  | ok (content : String)
  | unicodeDecodeError
  | ioError (msg : String)
deriving DecidableEq

/-- Observable behaviour of one path in the modelled filesystem. -/
structure FileInfo where
  /-- `os.path.isfile` -/
  isfile : Bool
  /-- `os.access(file_path, os.R_OK)` -/
  readable : Bool
  /-- `os.path.getsize`, as consulted by the size rule of the filter -/
  size : Nat
  /-- `os.stat` at metadata-reading time; `.error msg` when it raises -/
  stat : Except String StatInfo
  /-- `open(file_path, 'rb')` followed by `f.read(sample_size)`:
  `none` when opening or reading raises -/
  bytes : Option (List Nat)
  /-- full text read of the file -/
  readText : ReadOutcome

/-- The filesystem model: per-path observations plus the path
functions `os.path.abspath` and `os.path.relpath`. -/
structure FS where
  files : String → FileInfo
  abspath : String → String
  relpath : String → String → String

/-- The parsed command-line arguments (`argparse` namespace) as far as
the core pipeline reads them.  `include` is a Lean keyword, hence the
trailing underscore. -/
structure Args where
  path : String
  include_ : Option String
  exclude : Option String
  max_size : Option Int
  include_binary : Bool
  output : String
  format : String
deriving DecidableEq

/-- `f".{ext.lstrip('.')}"` — normalise one user-supplied extension
token: strip every leading dot, then prepend exactly one. -/
def normExt (ext : String) : String :=
  "." ++ pyLstripDots ext

/-- `[f".{ext.lstrip('.')}" for ext in s.split(',')]` -/
def extTokens (s : String) : List String :=
  (pySplitComma s).map normExt

/-- `any(file_path.lower().endswith(ext.lower()) for ext in exts)` -/
def matchesAny (file_path : String) (exts : List String) : Bool :=
  exts.any (fun ext => pyEndsWith (pyLower file_path) (pyLower ext))

/-- The size rule condition of `should_process_file`:
`args.max_size and os.path.getsize(file_path) > args.max_size * 1024`.
Note `args.max_size` is in kilobytes and `0`/`None` are falsy. -/
def maxSizeRejects (max_size : Option Int) (size : Nat) : Bool :=
  match max_size with
  | none => false
  | some k => !(k == 0) && decide ((size : Int) > k * 1024)

/-- `should_process_file(file_path, args)` from
`filefusion/core/file_processor.py`: five rules evaluated in order,
returning `False` at the first failing rule. -/
def should_process_file (fs : FS) (file_path : String) (args : Args) : Bool :=
  let fi := fs.files file_path
  -- Check if file exists and is readable
  if !fi.isfile || !fi.readable then false
  -- Skip the output file
  else if fs.abspath file_path == fs.abspath args.output then false
  -- Check max size
  else if maxSizeRejects args.max_size fi.size then false
  -- Check include extensions
  else if (match args.include_ with
           | none => false
           | some s => !(s == "") && !(matchesAny file_path (extTokens s))) then false
  -- Check exclude extensions
  else if (match args.exclude with
           | none => false
           | some s => !(s == "") && matchesAny file_path (extTokens s)) then false
  else true


/-! ## Binary classifier (`is_binary`) -/

/-- Strict UTF-8 validity of a byte sequence, exactly the condition
under which Python `bytes.decode('utf-8')` succeeds: rejects stray
continuation bytes, overlong encodings (incl. `C0`/`C1` and the `E0`
and `F0` low second bytes), UTF-16 surrogates (`ED A0`–`ED BF`),
code points above `U+10FFFF` (`F5`–`FF`, `F4 90+`), and sequences
truncated at the end of the sample. -/
def validUtf8 : List Nat → Bool
  | [] => true
  | b :: rest =>
    if b < 0x80 then validUtf8 rest
    else if b < 0xC2 then false
    else if b < 0xE0 then
      match rest with
      | b1 :: rest2 =>
        (0x80 ≤ b1 && b1 < 0xC0) && validUtf8 rest2
      | [] => false
    else if b < 0xF0 then
      match rest with
      | b1 :: b2 :: rest2 =>
        (0x80 ≤ b1 && b1 < 0xC0) && (0x80 ≤ b2 && b2 < 0xC0) &&
        (!(b == 0xE0) || (0xA0 ≤ b1 : Bool)) &&
        (!(b == 0xED) || (b1 < 0xA0 : Bool)) && validUtf8 rest2
      | _ => false
    else if b < 0xF5 then
      match rest with
      | b1 :: b2 :: b3 :: rest2 =>
        (0x80 ≤ b1 && b1 < 0xC0) && (0x80 ≤ b2 && b2 < 0xC0) &&
        (0x80 ≤ b3 && b3 < 0xC0) &&
        (!(b == 0xF0) || (0x90 ≤ b1 : Bool)) &&
        (!(b == 0xF4) || (b1 < 0x90 : Bool)) && validUtf8 rest2
      | _ => false
    else false

/-- `is_binary(file_path, sample_size=8192)` from
`filefusion/utils/helpers.py`: sample the leading bytes; binary when
the sample contains a null byte or fails UTF-8 decoding; binary
(fail-safe) when the file cannot be opened or read. -/
def is_binary (fs : FS) (file_path : String) (sample_size : Nat := 8192) : Bool :=
  match (fs.files file_path).bytes with
  | none => true  -- Assume binary if we can't read the file
  | some bs =>
    let chunk := bs.take sample_size
    if chunk.contains 0 then true  -- Check for null bytes
    else if validUtf8 chunk then false
    else true

/-! ## Metadata reader (`get_file_metadata`) -/

/-- `get_human_readable_size(size_bytes)` from
`filefusion/utils/helpers.py`.  The two float branches format
`size/2^k` with two decimals; the float formatting is modelled as
exact rounding of the rational value to two decimals. -/
def twoDecimals (num den : Nat) : String :=
  let centi := (num * 100 + den / 2) / den
  let frac := centi % 100
  toString (centi / 100) ++ "." ++
    (if frac < 10 then "0" ++ toString frac else toString frac)

/-- `get_human_readable_size` -/
def get_human_readable_size (size_bytes : Nat) : String :=
  if size_bytes > 1024 * 1024 then twoDecimals size_bytes (1024 * 1024) ++ " MB"
  else if size_bytes > 1024 then twoDecimals size_bytes 1024 ++ " KB"
  else toString size_bytes ++ " bytes"

/-- The metadata dictionary produced by `get_file_metadata`: on the
failure branch every display field is `"Unknown"`, the size is `0` and
the exception message is kept under the `error` key (absent, i.e.
`none`, on success). -/
structure Metadata where
  size : Nat
  size_str : String
  created : String
  modified : String
  error : Option String := none
deriving DecidableEq

/-- `get_file_metadata(file_path)` from `filefusion/utils/helpers.py`:
`os.stat` wrapped in `try/except`; a stat failure yields the
`size=0 / "Unknown"` dictionary instead of raising. -/
def get_file_metadata (fs : FS) (file_path : String) : Metadata :=
  match (fs.files file_path).stat with
  | .ok st =>
      { size := st.st_size
        size_str := get_human_readable_size st.st_size
        created := st.st_ctime
        modified := st.st_mtime
        error := none }
  | .error e =>
      { size := 0
        size_str := "Unknown"
        created := "Unknown"
        modified := "Unknown"
        error := some e }

/-! ## Per-file header/footer (`build_file_header`) -/

/-- `'=' * 80` -/
def eqBar : String := String.mk (List.replicate 80 '=')

/-- `build_file_header(file_path, args, metadata, comment_style)` from
`filefusion/core/file_processor.py`, returning the `(header, footer)`
pair for the configured output format. -/
def build_file_header (fs : FS) (file_path : String) (args : Args)
    (metadata : Metadata) (comment_style : String) : String × String :=
  let rel_path := fs.relpath file_path args.path
  if args.format == "text" then
    (comment_style ++ " File: " ++ rel_path ++ "\n" ++
     comment_style ++ " Size: " ++ metadata.size_str ++ "\n" ++
     comment_style ++ " Created: " ++ metadata.created ++ "\n" ++
     comment_style ++ " Modified: " ++ metadata.modified ++ "\n" ++
     comment_style ++ " " ++ eqBar ++ "\n",
     "\n\n")
  else if args.format == "md" then
    ("## " ++ rel_path ++ "\n\n" ++
     "- Size: " ++ metadata.size_str ++ "\n" ++
     "- Created: " ++ metadata.created ++ "\n" ++
     "- Modified: " ++ metadata.modified ++ "\n\n" ++
     "```\n",
     "```\n\n")
  else if args.format == "html" then
    ("<div class='file'>\n" ++
     "<h2>" ++ rel_path ++ "</h2>\n" ++
     "<div class='metadata'>\n" ++
     "<p>Size: " ++ metadata.size_str ++ "</p>\n" ++
     "<p>Created: " ++ metadata.created ++ "</p>\n" ++
     "<p>Modified: " ++ metadata.modified ++ "</p>\n" ++
     "</div>\n" ++
     "<pre><code>\n",
     "</code></pre>\n</div>\n\n")
  else
    ("# " ++ rel_path ++ "\n\n", "\n\n")

/-! ## Worker (`process_file`) -/

/-- The dictionary returned by `process_file`, as a tagged variant:
`status` is one of `'success'`, `'skipped'`, `'error'`; every variant
carries `file_path`; a success carries metadata, rendered header,
content and rendered footer; skips and errors carry a reason. -/
inductive PResult where
  | success (file_path : String) (metadata : Metadata)
      (header content footer : String)
  | skipped (file_path : String) (reason : String)
  | error (file_path : String) (reason : String)
deriving DecidableEq

/-- The `file_path` key, present on every variant. -/
def PResult.file_path : PResult → String
  | .success p _ _ _ _ => p
  | .skipped p _ => p
  | .error p _ => p

/-- `r['status'] == 'success'` -/
def PResult.isSuccess : PResult → Bool
  | .success _ _ _ _ _ => true
  | _ => false

/-- `r['status'] == 'skipped'` -/
def PResult.isSkipped : PResult → Bool
  | .skipped _ _ => true
  | _ => false

/-- `r['status'] == 'error'` -/
def PResult.isError : PResult → Bool
  | .error _ _ => true
  | _ => false

/-- `r['metadata']['size']` for a success (only ever read off
successes by the statistics fold). -/
def PResult.metaSize : PResult → Nat
  | .success _ md _ _ _ => md.size
  | _ => 0

/-- `process_file(args, file_path, comment_style)` from
`filefusion/core/file_processor.py`.  Filter first, then the binary
check, then metadata + header + content read inside `try/except`:
the inner `except UnicodeDecodeError` yields a skip, any other
exception from the read is caught by the outer `except Exception` and
yields an error result — the function itself never raises. -/
def process_file (fs : FS) (args : Args) (file_path : String)
    (comment_style : String) : PResult :=
  if !should_process_file fs file_path args then
    .skipped file_path "filtered out by rules"
  else if is_binary fs file_path && !args.include_binary then
    .skipped file_path "binary file"
  else
    let metadata := get_file_metadata fs file_path
    let hf := build_file_header fs file_path args metadata comment_style
    match (fs.files file_path).readText with
    | .unicodeDecodeError => .skipped file_path "encoding error"
    | .ioError msg => .error file_path msg
    | .ok content => .success file_path metadata hf.1 content hf.2

/-! ## Scheduler and assembler (`main` in `filefusion/cli.py`) -/

/-- The collected result list: `executor.map(lambda x: process_file(*x),
file_tasks)` yields exactly one result per discovered path, in
submission order. -/
def runResults (fs : FS) (args : Args) (comment_style : String)
    (all_files : List String) : List PResult :=
  all_files.map (fun file_path => process_file fs args file_path comment_style)

/-- `successful = [r for r in results if r['status'] == 'success']` -/
def successfulOf (results : List PResult) : List PResult :=
  results.filter PResult.isSuccess

/-- `skipped = [r for r in results if r['status'] == 'skipped']` -/
def skippedOf (results : List PResult) : List PResult :=
  results.filter PResult.isSkipped

/-- `errors = [r for r in results if r['status'] == 'error']` -/
def errorsOf (results : List PResult) : List PResult :=
  results.filter PResult.isError

/-- The `stats` dictionary assembled in `main`. -/
structure Stats where
  processed : Nat
  skipped : Nat
  errors : Nat
  total_size : Nat
  total_size_str : String
deriving DecidableEq

/-- The statistics fold of `main` (`filefusion/cli.py`): partition the
results, sum `metadata['size']` over the successes, and build the
`stats` dictionary; note the `skipped` entry is
`len(skipped) + len(errors)`. -/
def computeStats (results : List PResult) : Stats :=
  let successful := successfulOf results
  let skipped := skippedOf results
  let errors := errorsOf results
  let total_size := (successful.map PResult.metaSize).sum
  { processed := successful.length
    skipped := skipped.length + errors.length
    errors := errors.length
    total_size := total_size
    total_size_str := get_human_readable_size total_size }

/-- The output body: `main` writes `header`, `content`, `footer` for
each element of `successful`, in list order, between the document
header and footer. -/
def outputBody (results : List PResult) : List PResult :=
  successfulOf results

/-- The paths whose content appears in the output body, in the order
they are written. -/
def bodyPaths (results : List PResult) : List String :=
  (outputBody results).map PResult.file_path

/-- Completion-order model of the thread pool: workers finish in an
arbitrary order (`order`, a permutation of the submission indices) and
each completed task stores its result at its own submission index in a
slot array, which is how `executor.map` keeps the collected list in
submission order regardless of completion order. -/
def collectByIndex (all_files : List String) (worker : String → PResult)
    (order : List Nat) : List (Option PResult) :=
  order.foldl
    (fun slots i => slots.set i (some (worker (all_files.getD i ""))))
    (List.replicate all_files.length none)

/-! ## Spec-side filter (for the refinement claim about rule order)

These definitions transcribe §4.2 of the specification word for word,
to be compared with `should_process_file` (transcribed from the
source).  "maxSizeBytes is set" means the CLI kilobyte value is
present and nonzero (`None` and `0` both mean no limit), and
`maxSizeBytes` itself is the kilobyte value times 1024. -/

/-- Spec §4.2: "Extension comparison is a case-insensitive suffix
match against `.ext` forms; a leading dot in user-supplied extensions
is normalized away before comparison." -/
def spec_extMatches (file_path tok : String) : Bool :=
  pyEndsWith (pyLower file_path) (pyLower ("." ++ pyLstripDots tok))

/-- The configured extension list: empty when the comma-separated
CLI token string is absent or empty. -/
def spec_extList : Option String → List String
  | none => []
  | some s => if s == "" then [] else pySplitComma s

/-- Rule 1: "path must refer to an existing, readable regular file". -/
def spec_rule1 (fs : FS) (p : String) : Bool :=
  (fs.files p).isfile && (fs.files p).readable

/-- Rule 2: "path must not equal config.outputPath (compared by
canonical/absolute form)". -/
def spec_rule2 (fs : FS) (p : String) (args : Args) : Bool :=
  !(fs.abspath p == fs.abspath args.output)

/-- Rule 3: "if config.maxSizeBytes is set and file size exceeds it —
reject" (pass condition). -/
def spec_rule3 (fs : FS) (p : String) (args : Args) : Bool :=
  match args.max_size with
  | none => true
  | some k => k == 0 || decide (((fs.files p).size : Int) ≤ k * 1024)

/-- Rule 4: "if config.includeExtensions is non-empty, path's
extension (case-insensitive) must match one of them". -/
def spec_rule4 (_fs : FS) (p : String) (args : Args) : Bool :=
  (spec_extList args.include_).isEmpty ||
    (spec_extList args.include_).any (spec_extMatches p)

/-- Rule 5: "if config.excludeExtensions is non-empty and path's
extension (case-insensitive) matches one — reject" (pass condition). -/
def spec_rule5 (_fs : FS) (p : String) (args : Args) : Bool :=
  !((spec_extList args.exclude).any (spec_extMatches p))

/-- Spec §4.2: the five rules in the stated order, short-circuiting at
the first failing rule (for pure boolean rules this is the ordered
conjunction). -/
def spec_shouldProcess (fs : FS) (p : String) (args : Args) : Bool :=
  spec_rule1 fs p &&
    (spec_rule2 fs p args &&
      (spec_rule3 fs p args &&
        (spec_rule4 fs p args && spec_rule5 fs p args)))

/-! ## Concrete fixtures -/

/-- A path with no file behind it: every OS call fails. -/
def missingFile : FileInfo :=
  { isfile := false
    readable := false
    size := 0
    stat := .error "No such file or directory"
    bytes := none
    readText := .ioError "No such file or directory" }

/-- A plain readable text file whose OS calls all succeed. -/
def plainTextFile (size : Nat) (bytes : List Nat) (content : String) : FileInfo :=
  { isfile := true
    readable := true
    size := size
    stat := .ok { st_size := size, st_ctime := "2024-01-01", st_mtime := "2024-01-02" }
    bytes := some bytes
    readText := .ok content }

/-- The scenario filesystem of spec §8: root `r` containing
`a.txt` = "hello", `b.bin` = bytes `00 01 02`, `c.log` = "world",
plus a few extra fixture files for the other claims:
`big.txt` (20 bytes), `huge.txt` (20000 bytes), `flaky.txt`
(readable but its full-text read raises a non-decode I/O error) and
`ghost.txt` (readable but `os.stat` fails at metadata time). -/
def scenarioFS : FS :=
  { files := fun p =>
      if p == "r/a.txt" then
        plainTextFile 5 [104, 101, 108, 108, 111] "hello"
      else if p == "r/b.bin" then
        { isfile := true
          readable := true
          size := 3
          stat := .ok { st_size := 3, st_ctime := "2024-01-01", st_mtime := "2024-01-02" }
          bytes := some [0, 1, 2]
          readText := .ok (String.mk [Char.ofNat 0, Char.ofNat 1, Char.ofNat 2]) }
      else if p == "r/c.log" then
        plainTextFile 5 [119, 111, 114, 108, 100] "world"
      else if p == "r/big.txt" then
        plainTextFile 20 [116, 119, 101, 110, 116, 121] "twenty"
      else if p == "r/huge.txt" then
        plainTextFile 20000 [104, 117, 103, 101] "huge"
      else if p == "r/flaky.txt" then
        { isfile := true
          readable := true
          size := 4
          stat := .ok { st_size := 4, st_ctime := "2024-01-01", st_mtime := "2024-01-02" }
          bytes := some [116, 101, 120, 116]
          readText := .ioError "Permission denied" }
      else if p == "r/ghost.txt" then
        { isfile := true
          readable := true
          size := 7
          stat := .error "stat: interrupted"
          bytes := some [99, 111, 110, 116, 101, 110, 116]
          readText := .ok "content" }
      else missingFile
    abspath := fun s => "/" ++ s
    relpath := fun p root => String.mk (p.data.drop (root.data.length + 1)) }

/-- Config of the §8 three-file scenario: exclude `.bin`,
include-binary off, no size limit. -/
def c6Args : Args :=
  { path := "r"
    include_ := none
    exclude := some ".bin"
    max_size := none
    include_binary := false
    output := "out.txt"
    format := "text" }

/-- Config with the maximum-size limit set to 10 (the CLI `--max-size`
value, which the code multiplies by 1024). -/
def c1Args : Args :=
  { path := "r"
    include_ := none
    exclude := none
    max_size := some 10
    include_binary := false
    output := "out.txt"
    format := "text" }

/-- `c1Args` with the maximum-size limit set to exactly 0. -/
def c10Args : Args :=
  { c1Args with max_size := some 0 }

/-! ## Helper lemmas -/

/-- `process_file` always returns the `file_path` it was given, on
every variant. -/
theorem process_file_keeps_path (fs : FS) (args : Args) (p cs : String) :
    (process_file fs args p cs).file_path = p := by
  unfold process_file
  split
  · rfl
  · split
    · rfl
    · cases h : (fs.files p).readText <;> simp [h, PResult.file_path]

/-- The output body lists exactly the discovered paths whose worker
result is a success, in discovery order. -/
theorem bodyPaths_runResults (fs : FS) (args : Args) (cs : String)
    (files : List String) :
    bodyPaths (runResults fs args cs files)
      = files.filter (fun q => (process_file fs args q cs).isSuccess) := by
  induction files with
  | nil => rfl
  | cons p rest ih =>
    unfold bodyPaths outputBody successfulOf runResults at ih ⊢
    simp only [List.map_cons, List.filter_cons]
    cases h : (process_file fs args p cs).isSuccess <;>
      simp [h, process_file_keeps_path, ih]

/-- `commaSplit` never returns the empty list (Python `split` always
yields at least one token). -/
theorem commaSplit_ne_nil (cs : List Char) : commaSplit cs ≠ [] := by
  cases cs with
  | nil => simp [commaSplit]
  | cons c rest =>
    unfold commaSplit
    rcases commaSplit rest with _ | ⟨h, t⟩ <;> cases hc : c == ',' <;> simp

/-- The source's token-by-token matching over normalised tokens is the
spec's extension comparison over the raw tokens. -/
theorem matchesAny_extTokens (p s : String) :
    matchesAny p (extTokens s) = (pySplitComma s).any (spec_extMatches p) := by
  unfold matchesAny extTokens spec_extMatches normExt
  rw [List.any_map]
  rfl

/-- Python `split` never yields an empty token list, so a present and
non-empty CLI token string always produces a non-empty extension
list. -/
theorem pySplitComma_ne_nil (s : String) : pySplitComma s ≠ [] := by
  unfold pySplitComma
  intro hmap
  exact commaSplit_ne_nil s.data (by simpa using hmap)

/-! ## Claim C2 -/

/-- Claim C2, counterexample: with a single `Error` result, the
`skipped` entry of the statistics dictionary is `1`, while there are
`0` `Skipped` results — so the skipped count does not aggregate only
the `Skipped` results. -/
theorem c2_counterexample :
    (computeStats [PResult.error "f" "boom"]).skipped
      ≠ (skippedOf [PResult.error "f" "boom"]).length := by
  decide

/-- Claim C2, amended: in the statistics computed after collection,
the error count aggregates exactly the `Error` results and the
processed count exactly the `Success` results, but the skipped entry
of the statistics dictionary aggregates the `Skipped` results
**plus** the `Error` results (`len(skipped) + len(errors)`), for
every mix of results. -/
theorem c2_amended (results : List PResult) :
    (computeStats results).skipped
        = (skippedOf results).length + (errorsOf results).length
      ∧ (computeStats results).errors = (errorsOf results).length
      ∧ (computeStats results).processed = (successfulOf results).length :=
  ⟨rfl, rfl, rfl⟩

/-! ## Claim C4 -/

/-- Claim C4: the total-bytes statistic handed to the document footer
equals the sum of the metadata size field over exactly the results
whose content is written to the output body — the body is exactly the
`Success` results, and the sum ranges over exactly those. -/
theorem c4_total_bytes (results : List PResult) :
    (computeStats results).total_size
        = ((outputBody results).map PResult.metaSize).sum
      ∧ outputBody results = results.filter PResult.isSuccess :=
  ⟨rfl, rfl⟩

/-! ## Claim C7 -/

/-- Claim C7: `is_binary` returns true exactly when the up-to-8192
byte leading sample contains a null byte or fails strict UTF-8
decoding, and returns true whenever the file cannot be opened or
read at all. -/
theorem c7_is_binary (fs : FS) (p : String) :
    is_binary fs p = true ↔
      ((fs.files p).bytes = none ∨
        ∃ bs, (fs.files p).bytes = some bs ∧
          (0 ∈ bs.take 8192 ∨ validUtf8 (bs.take 8192) = false)) := by
  cases h : (fs.files p).bytes with
  | none => simp [is_binary, h]
  | some bs =>
    simp only [is_binary, h]
    constructor
    · intro hb
      refine Or.inr ⟨bs, rfl, ?_⟩
      by_cases hz : (bs.take 8192).contains 0 = true
      · exact Or.inl (List.elem_iff.mp hz)
      · rw [if_neg hz] at hb
        by_cases hv : validUtf8 (bs.take 8192) = true
        · rw [if_pos hv] at hb
          exact absurd hb (by simp)
        · exact Or.inr (Bool.eq_false_iff.mpr hv)
    · rintro (hnone | ⟨bs2, hbs2, hcase⟩)
      · exact absurd hnone (by simp)
      · injection hbs2 with hbs2
        subst hbs2
        by_cases hz : (bs.take 8192).contains 0 = true
        · rw [if_pos hz]
        · rw [if_neg hz]
          rcases hcase with hm | hv
          · exact absurd (List.elem_iff.mpr hm) hz
          · rw [if_neg (by simp [hv])]

/-! ## Claim C5 -/

/-- The spec's rule 3 (pass form) is the negation of the source's
size-rejection condition. -/
theorem spec_rule3_eq (fs : FS) (p : String) (args : Args) :
    spec_rule3 fs p args = !maxSizeRejects args.max_size (fs.files p).size := by
  unfold spec_rule3 maxSizeRejects
  cases args.max_size with
  | none => rfl
  | some k =>
    by_cases hk : k == 0 <;>
      by_cases hs : (((fs.files p).size : Int) > k * 1024) <;>
        simp [hk, hs, le_of_not_lt, not_le_of_lt]

/-- The spec's rule 4 (pass form) is the negation of the source's
include-extensions rejection condition. -/
theorem spec_rule4_eq (fs : FS) (p : String) (args : Args) :
    spec_rule4 fs p args
      = !(match args.include_ with
          | none => false
          | some s => !(s == "") && !(matchesAny p (extTokens s))) := by
  unfold spec_rule4 spec_extList
  cases args.include_ with
  | none => rfl
  | some s =>
    by_cases hs : s == ""
    · simp [hs]
    · rcases hsplit : pySplitComma s with _ | ⟨tok, toks⟩
      · exact absurd hsplit (pySplitComma_ne_nil s)
      · simp [hs, matchesAny_extTokens, hsplit]

/-- The spec's rule 5 (pass form) is the negation of the source's
exclude-extensions rejection condition. -/
theorem spec_rule5_eq (fs : FS) (p : String) (args : Args) :
    spec_rule5 fs p args
      = !(match args.exclude with
          | none => false
          | some s => !(s == "") && matchesAny p (extTokens s)) := by
  unfold spec_rule5 spec_extList
  cases args.exclude with
  | none => rfl
  | some s =>
    by_cases hs : s == ""
    · simp [hs]
    · simp [hs, matchesAny_extTokens]

/-- Claim C5: the filter evaluates exactly the five spec rules in the
stated order, short-circuiting at the first failing rule —
`should_process_file` equals the ordered conjunction of the
spec-worded rules, whose extension comparison is the case-insensitive
suffix match against `.ext` forms with leading dots in user tokens
normalised away (`spec_extMatches`). -/
theorem c5_rule_order (fs : FS) (p : String) (args : Args) :
    should_process_file fs p args = spec_shouldProcess fs p args := by
  unfold should_process_file spec_shouldProcess
  rw [spec_rule3_eq, spec_rule4_eq, spec_rule5_eq]
  cases h1 : (fs.files p).isfile <;>
  cases h2 : (fs.files p).readable <;>
  cases h3 : (fs.abspath p == fs.abspath args.output) <;>
  cases h4 : maxSizeRejects args.max_size (fs.files p).size <;>
  cases h5 : (match args.include_ with
              | none => false
              | some s => !(s == "") && !(matchesAny p (extTokens s))) <;>
  cases h6 : (match args.exclude with
              | none => false
              | some s => !(s == "") && matchesAny p (extTokens s)) <;>
    simp [spec_rule1, spec_rule2, h1, h2, h3, h4, h5, h6]

/-! ## Claim C3 -/

/-- Storing completed results at their submission indices never
changes the slot count. -/
theorem length_collectStore (worker : String → PResult) (files : List String) :
    ∀ (order : List Nat) (slots : List (Option PResult)),
      (order.foldl
        (fun s i => s.set i (some (worker (files.getD i "")))) slots).length
        = slots.length := by
  intro order
  induction order with
  | nil => intro slots; rfl
  | cons i rest ih =>
    intro slots
    simp only [List.foldl_cons]
    rw [ih]
    exact List.length_set slots i _

/-- After workers complete in an arbitrary order, slot `j` holds the
result of task `j` whenever task `j` completed, and is untouched
otherwise: each write targets its own submission index and writes a
value determined by that index alone. -/
theorem getElem?_collectStore (worker : String → PResult) (files : List String) :
    ∀ (order : List Nat) (slots : List (Option PResult)),
      (∀ i ∈ order, i < slots.length) →
      ∀ j,
        (order.foldl
          (fun s i => s.set i (some (worker (files.getD i "")))) slots)[j]?
          = if j ∈ order then some (some (worker (files.getD j "")))
            else slots[j]? := by
  intro order
  induction order with
  | nil =>
    intro slots _ j
    simp
  | cons i rest ih =>
    intro slots hbound j
    simp only [List.foldl_cons]
    rw [ih (slots.set i (some (worker (files.getD i ""))))
      (fun i2 h2 => by
        rw [List.length_set]
        exact hbound i2 (List.mem_cons_of_mem _ h2))]
    by_cases hjr : j ∈ rest
    · simp [hjr, List.mem_cons]
    · by_cases hji : j = i
      · subst hji
        have hlt : j < slots.length := hbound j (List.mem_cons_self _ _)
        simp [hjr, List.getElem?_set_self hlt]
      · have hne : ¬ j ∈ i :: rest := by
          simp [List.mem_cons, hji, hjr]
        simp [hjr, hne, List.getElem?_set_ne (fun h => hji h.symm)]

/-- When every task completes exactly once (the completion order is a
permutation of the submission indices), the collected slot array is
the submission-ordered result list, independent of the completion
order. -/
theorem collectByIndex_eq_map (files : List String)
    (worker : String → PResult) (order : List Nat)
    (hperm : order.Perm (List.range files.length)) :
    collectByIndex files worker order
      = files.map (fun p => some (worker p)) := by
  have hbound : ∀ i ∈ order, i < (List.replicate files.length
      (none : Option PResult)).length := by
    intro i hi
    rw [List.length_replicate]
    exact List.mem_range.mp (hperm.mem_iff.mp hi)
  apply List.ext_getElem?
  intro j
  unfold collectByIndex
  rw [getElem?_collectStore worker files order _ hbound j]
  rw [List.getElem?_map]
  by_cases hj : j < files.length
  · have hjo : j ∈ order := hperm.mem_iff.mpr (List.mem_range.mpr hj)
    rw [if_pos hjo, List.getD_eq_getElem files "" hj,
      List.getElem?_eq_getElem hj]
    rfl
  · have hjo : ¬ j ∈ order := fun h =>
      hj (List.mem_range.mp (hperm.mem_iff.mp h))
    rw [if_neg hjo, List.getElem?_eq_none, List.getElem?_eq_none]
    · rfl
    · omega
    · rw [List.length_replicate]
      omega

/-- Claim C3: for every list of discovered paths and every completion
order of the workers, reassembling results by submission index
yields exactly the submission-ordered result list, and therefore the
output body lists the successful files in the original discovery
order. -/
theorem c3_discovery_order (fs : FS) (args : Args) (cs : String)
    (files : List String) (order : List Nat)
    (hperm : order.Perm (List.range files.length)) :
    (collectByIndex files (fun q => process_file fs args q cs)
        order).filterMap id
        = runResults fs args cs files
      ∧ bodyPaths (runResults fs args cs files)
        = files.filter (fun q => (process_file fs args q cs).isSuccess) := by
  refine ⟨?_, bodyPaths_runResults fs args cs files⟩
  rw [collectByIndex_eq_map files _ order hperm, List.filterMap_map]
  exact congrFun (List.filterMap_eq_map (fun q => process_file fs args q cs))
    files

/-- Witness for C3: two files completed in reversed order still
assemble to the discovery-ordered results. -/
theorem c3_discovery_order_witness :
    (collectByIndex ["r/a.txt", "r/c.log"]
        (fun q => process_file scenarioFS c6Args q "#") [1, 0]).filterMap id
        = runResults scenarioFS c6Args "#" ["r/a.txt", "r/c.log"]
      ∧ bodyPaths (runResults scenarioFS c6Args "#" ["r/a.txt", "r/c.log"])
        = ["r/a.txt", "r/c.log"].filter
            (fun q => (process_file scenarioFS c6Args q "#").isSuccess) :=
  c3_discovery_order scenarioFS c6Args "#" ["r/a.txt", "r/c.log"] [1, 0]
    (by decide)

/-! ## Claim C1 -/

/-- Claim C1, counterexample: with the maximum-size limit set to 10
and `big.txt` a 20-byte text file that is otherwise accepted, the
pipeline does **not** skip `big.txt` — the filter accepts it and its
content appears in the output body, because the configured limit is
in kilobytes (`args.max_size * 1024` bytes), not bytes. -/
theorem c1_counterexample :
    should_process_file scenarioFS "r/big.txt" c1Args = true
      ∧ bodyPaths (runResults scenarioFS c1Args "#" ["r/big.txt"])
          = ["r/big.txt"] := by
  constructor
  · decide
  · decide

/-- Claim C1, amended: the configured maximum size is in kilobytes,
so the size rule compares against `max_size * 1024` bytes.  For every
file whose size exceeds that bound (with a nonzero configured limit,
and rules 1–2 passing so that rejection happens at rule 3),
`should_process_file` rejects the file and it never appears in the
output body of any run. -/
theorem c1_amended (fs : FS) (args : Args) (p : String) (k : Int)
    (hm : args.max_size = some k) (hk : ¬(k = 0))
    (hsz : k * 1024 < ((fs.files p).size : Int))
    (hf : (fs.files p).isfile = true) (hr : (fs.files p).readable = true)
    (hout : ¬(fs.abspath p = fs.abspath args.output)) :
    should_process_file fs p args = false
      ∧ ∀ files cs, p ∉ bodyPaths (runResults fs args cs files) := by
  have hreject : maxSizeRejects args.max_size (fs.files p).size = true := by
    rw [hm]
    simp only [maxSizeRejects]
    simp [hk, hsz]
  have hspf : should_process_file fs p args = false := by
    unfold should_process_file
    simp [hf, hr, hout, hreject]
  refine ⟨hspf, ?_⟩
  intro files cs
  rw [bodyPaths_runResults]
  intro hmem
  rcases List.mem_filter.mp hmem with ⟨-, hsucc⟩
  unfold process_file at hsucc
  rw [hspf] at hsucc
  simp [PResult.isSuccess] at hsucc

/-- Witness for the amended C1: a 20000-byte file against the
10-kilobyte limit is rejected and stays out of the body. -/
theorem c1_amended_witness :
    should_process_file scenarioFS "r/huge.txt" c1Args = false
      ∧ "r/huge.txt" ∉
          bodyPaths (runResults scenarioFS c1Args "#"
            ["r/big.txt", "r/huge.txt"]) := by
  have h := c1_amended scenarioFS c1Args "r/huge.txt" 10 rfl (by decide)
    (by decide) (by decide) (by decide) (by decide)
  exact ⟨h.1, h.2 ["r/big.txt", "r/huge.txt"] "#"⟩

/-! ## Claim C6 -/

/-- Claim C6: in the three-file scenario (`a.txt` "hello", `b.bin`
bytes 00 01 02, `c.log` "world"; exclude `.bin`, include-binary off)
the output body contains exactly `a.txt` and `c.log` in discovery
order, the processed count is 2, the skipped count is 1, and
`b.bin`'s skip reason is the filter reason, not the binary reason —
and in general any path rejected by the filter is skipped with the
filter reason before the binary classifier is consulted. -/
theorem c6_scenario :
    (bodyPaths (runResults scenarioFS c6Args "#"
          ["r/a.txt", "r/b.bin", "r/c.log"]) = ["r/a.txt", "r/c.log"]
      ∧ (computeStats (runResults scenarioFS c6Args "#"
          ["r/a.txt", "r/b.bin", "r/c.log"])).processed = 2
      ∧ (computeStats (runResults scenarioFS c6Args "#"
          ["r/a.txt", "r/b.bin", "r/c.log"])).skipped = 1
      ∧ process_file scenarioFS c6Args "r/b.bin" "#"
          = .skipped "r/b.bin" "filtered out by rules")
    ∧ ∀ (fs : FS) (args : Args) (q cs : String),
        should_process_file fs q args = false →
        process_file fs args q cs = .skipped q "filtered out by rules" := by
  constructor
  · exact ⟨by decide, by decide, by decide, by decide⟩
  · intro fs args q cs h
    unfold process_file
    rw [h]
    simp

/-- Witness for the general clause of C6 at a path that fails the
filter (a missing file). -/
theorem c6_scenario_witness :
    process_file scenarioFS c6Args "r/nope.txt" "#"
      = .skipped "r/nope.txt" "filtered out by rules" :=
  c6_scenario.2 scenarioFS c6Args "r/nope.txt" "#" (by decide)

/-! ## Claim C8 -/

/-- Claim C8: a single worker invocation is total — it returns
exactly one `ProcessingResult` variant (success, skipped or error)
carrying the path it was given — and an I/O exception during the
content read (any exception other than `UnicodeDecodeError`) is
captured as an `Error` result carrying the exception's message. -/
theorem c8_worker_total (fs : FS) (args : Args) (p cs : String) :
    ((∃ md hd c ft, process_file fs args p cs = .success p md hd c ft)
      ∨ (∃ r, process_file fs args p cs = .skipped p r)
      ∨ (∃ r, process_file fs args p cs = .error p r))
    ∧ (∀ msg, should_process_file fs p args = true →
        (is_binary fs p = false ∨ args.include_binary = true) →
        (fs.files p).readText = .ioError msg →
        process_file fs args p cs = .error p msg) := by
  constructor
  · unfold process_file
    split
    · exact Or.inr (Or.inl ⟨_, rfl⟩)
    · split
      · exact Or.inr (Or.inl ⟨_, rfl⟩)
      · cases h : (fs.files p).readText with
        | ok c => exact Or.inl ⟨_, _, c, _, rfl⟩
        | unicodeDecodeError => exact Or.inr (Or.inl ⟨_, rfl⟩)
        | ioError msg => exact Or.inr (Or.inr ⟨msg, rfl⟩)
  · intro msg h1 h2 h3
    have hb : (is_binary fs p && !args.include_binary) = false := by
      rcases h2 with h2 | h2 <;> simp [h2]
    simp [process_file, h1, hb, h3]

/-- Witness for C8's error-capture clause: a readable text file whose
full read raises a permission error yields an `Error` result. -/
theorem c8_worker_total_witness :
    process_file scenarioFS c6Args "r/flaky.txt" "#"
      = .error "r/flaky.txt" "Permission denied" :=
  (c8_worker_total scenarioFS c6Args "r/flaky.txt" "#").2 "Permission denied"
    (by decide) (Or.inl (by decide)) rfl

/-! ## Claim C9 -/

/-- Claim C9: a stat failure on a file that passes the filter and
binary checks never produces an `Error` result — metadata falls back
to size 0 with `"Unknown"` fields, the file still becomes a `Success`
whose content appears in the output body, and it contributes 0 bytes
to the total (its metadata size is 0). -/
theorem c9_stat_failure (fs : FS) (args : Args) (cs p : String)
    (files : List String) (e c : String)
    (hstat : (fs.files p).stat = .error e)
    (hspf : should_process_file fs p args = true)
    (hbin : is_binary fs p = false ∨ args.include_binary = true)
    (hread : (fs.files p).readText = .ok c)
    (hmem : p ∈ files) :
    (∃ hd ft, process_file fs args p cs
        = .success p
            { size := 0, size_str := "Unknown", created := "Unknown",
              modified := "Unknown", error := some e } hd c ft)
      ∧ (process_file fs args p cs).metaSize = 0
      ∧ p ∈ bodyPaths (runResults fs args cs files) := by
  have hmd : get_file_metadata fs p
      = { size := 0, size_str := "Unknown", created := "Unknown",
          modified := "Unknown", error := some e } := by
    unfold get_file_metadata
    rw [hstat]
  have hbb : (is_binary fs p && !args.include_binary) = false := by
    rcases hbin with h | h <;> simp [h]
  have hpf : process_file fs args p cs
      = .success p
          { size := 0, size_str := "Unknown", created := "Unknown",
            modified := "Unknown", error := some e }
          (build_file_header fs p args
            { size := 0, size_str := "Unknown", created := "Unknown",
              modified := "Unknown", error := some e } cs).1 c
          (build_file_header fs p args
            { size := 0, size_str := "Unknown", created := "Unknown",
              modified := "Unknown", error := some e } cs).2 := by
    simp [process_file, hspf, hbb, hread, hmd]
  refine ⟨⟨_, _, hpf⟩, ?_, ?_⟩
  · rw [hpf]
    rfl
  · rw [bodyPaths_runResults]
    refine List.mem_filter.mpr ⟨hmem, ?_⟩
    rw [hpf]
    rfl

/-- Witness for C9: `ghost.txt` has a failing `os.stat` but passes the
filter and binary checks; its result has metadata size 0 and its path
is in the output body. -/
theorem c9_stat_failure_witness :
    (process_file scenarioFS c6Args "r/ghost.txt" "#").metaSize = 0
      ∧ "r/ghost.txt" ∈
          bodyPaths (runResults scenarioFS c6Args "#" ["r/ghost.txt"]) := by
  have h := c9_stat_failure scenarioFS c6Args "#" "r/ghost.txt"
    ["r/ghost.txt"] "stat: interrupted" "content" rfl (by decide)
    (Or.inl (by decide)) rfl (by decide)
  exact ⟨h.2.1, h.2.2⟩

/-! ## Claim C10 -/

/-- Claim C10: a configured maximum size of exactly 0 disables the
size limit entirely — the size rule rejects nothing (for any file
size), and the filter behaves exactly as when no maximum is
configured at all. -/
theorem c10_zero_disables (fs : FS) (p : String) (args : Args)
    (h : args.max_size = some 0) :
    (∀ sz, maxSizeRejects args.max_size sz = false)
      ∧ should_process_file fs p args
          = should_process_file fs p { args with max_size := none } := by
  constructor
  · intro sz
    rw [h]
    simp [maxSizeRejects]
  · unfold should_process_file
    rw [h]
    simp [maxSizeRejects]

/-- Witness for C10 at a concrete configuration and a huge file. -/
theorem c10_zero_disables_witness :
    maxSizeRejects c10Args.max_size 999999999 = false
      ∧ should_process_file scenarioFS "r/huge.txt" c10Args
          = should_process_file scenarioFS "r/huge.txt"
              { c10Args with max_size := none } :=
  ⟨(c10_zero_disables scenarioFS "r/huge.txt" c10Args rfl).1 999999999,
   (c10_zero_disables scenarioFS "r/huge.txt" c10Args rfl).2⟩
